import Mathlib

/-!
Shallow embedding of the `wicrs/jsapi` HTTP client (`src/src/app.ts`, final
revision, and the earlier draft `src/unnamed/part_000` where it differs).

The client is a thin wrapper: every endpoint method builds one HTTP request and
unwraps a `{success?, error?}` JSON envelope.  The network round trip is
modelled by passing the server's parsed response explicitly to each method; a
method then yields the request it hands to `fetch`, the unwrapped result
(`Except` models `return` vs `throw`), and the client object's state after the
call.  `console.log` calls are pure output and are dropped.
-/

namespace JsApi

/-- The JavaScript value domain as seen by this client: everything that can
appear as a field of a parsed JSON body or as an argument to
`JSON.stringify` (including `undefined`, which `JSON.parse` never produces
but which optional arguments such as `variables?: any` can carry, and `Date`
objects, which stringify to their ISO string). -/
inductive JsValue where
  | undefValue
  | null
  | bool (b : Bool)
  | num (n : Int)
  | str (s : String)
  | date (iso : String)
  | arr (elems : List JsValue)
  | obj (fields : List (String × JsValue))

/-- `v === undefined` on a JavaScript value. -/
def JsValue.isUndefValue : JsValue → Bool
  | .undefValue => true
  | _ => false

/-- JavaScript truthiness (`if (v)`): `undefined`, `null`, `false`, `0` and
the empty string are falsy; every object, array and date is truthy. -/
def JsValue.truthy : JsValue → Bool
  | .undefValue => false
  | .null => false
  | .bool b => b
  | .num n => n != 0
  | .str s => s != ""
  | .date _ => true
  | .arr _ => true
  | .obj _ => true

/-- JSON string escaping used by `JSON.stringify` for the characters this
client can produce. -/
def jsonEscape (s : String) : String :=
  String.join (s.toList.map (fun c =>
    if c = '"' then "\\\""
    else if c = '\\' then "\\\\"
    else if c = '\n' then "\\n"
    else if c = '\r' then "\\r"
    else if c = '\t' then "\\t"
    else String.singleton c))

mutual

/-- `JSON.stringify`: object properties whose value is `undefined` are
omitted, `Date` values serialise to their ISO string, a top-level or
array-element `undefined` serialises as `null` (the client never does the
former at top level). -/
def JsValue.stringify : JsValue → String
  | .undefValue => "null"
  | .null => "null"
  | .bool b => if b then "true" else "false"
  | .num n => toString n
  | .str s => "\"" ++ jsonEscape s ++ "\""
  | .date iso => "\"" ++ jsonEscape iso ++ "\""
  | .arr elems => "[" ++ String.intercalate "," (JsValue.stringifyElems elems) ++ "]"
  | .obj fields => "\x7b" ++ String.intercalate "," (JsValue.stringifyProps fields) ++ "\x7d"

/-- Serialised forms of the elements of a JSON array. -/
def JsValue.stringifyElems : List JsValue → List String
  | [] => []
  | v :: rest => JsValue.stringify v :: JsValue.stringifyElems rest

/-- Serialised `"key":value` pairs of a JSON object, skipping
`undefined`-valued properties as `JSON.stringify` does. -/
def JsValue.stringifyProps : List (String × JsValue) → List String
  | [] => []
  | (k, v) :: rest =>
    if v.isUndefValue then JsValue.stringifyProps rest
    else ("\"" ++ jsonEscape k ++ "\":" ++ JsValue.stringify v) :: JsValue.stringifyProps rest

end

/-- A JavaScript `string` optional value (`name?: string`): absent maps to
`undefined`. -/
def optStrJs : Option String → JsValue
  | some s => .str s
  | none => .undefValue

/-- A JavaScript `boolean` optional value (`setting?: boolean`). -/
def optBoolJs : Option Bool → JsValue
  | some b => .bool b
  | none => .undefValue

/-- `export type ID = string` -/
abbrev ID := String

/-- A JavaScript `Date`, identified by the ISO string `JSON.stringify`
produces for it. -/
structure Date where
  iso : String

/-- `export enum HubPermission` (src/src/app.ts lines 8-19). -/
inductive HubPermission where
  | All
  | ReadChannels
  | WriteChannels
  | Administrate
  | ManageChannels
  | Mute
  | Unmute
  | Kick
  | Ban
  | Unban

/-- The string value of each `HubPermission` enum member. -/
def HubPermission.toString : HubPermission → String
  | .All => "ALL"
  | .ReadChannels => "READ_CHANNELS"
  | .WriteChannels => "WRITE_CHANNELS"
  | .Administrate => "ADMINISTRATE"
  | .ManageChannels => "MANAGE_CHANNELS"
  | .Mute => "MUTE"
  | .Unmute => "UNMUTE"
  | .Kick => "KICK"
  | .Ban => "BAN"
  | .Unban => "UNBAN"

/-- `export enum ChannelPermission` (src/src/app.ts lines 21-26). -/
inductive ChannelPermission where
  | Write
  | Read
  | Manage
  | All

/-- The string value of each `ChannelPermission` enum member. -/
def ChannelPermission.toString : ChannelPermission → String
  | .Write => "WRITE"
  | .Read => "READ"
  | .Manage => "MANAGE"
  | .All => "ALL"

/-- `export type Result<T> = { success?: T; error?: string }` — the wire
envelope.  `none` models an absent field. -/
structure Result where
  success : Option JsValue
  error : Option String

/-- `result.success !== undefined`: true exactly when the field is present
and not the value `undefined`. -/
def Result.successDefined (r : Result) : Bool :=
  match r.success with
  | some v => !v.isUndefValue
  | none => false

/-- The envelope unwrap of `HttpClient.http` in src/src/app.ts (lines
140-144): `if (result.success !== undefined) return result.success; else
throw new Error(result.error)`.  The thrown error carries `result.error`,
which may itself be absent (`none`). -/
def unwrapEnvelope (r : Result) : Except (Option String) JsValue :=
  match r.success with
  | some v => if v.isUndefValue then Except.error r.error else Except.ok v
  | none => Except.error r.error

/-- The envelope unwrap of the earlier draft `HttpClient.http` in
src/unnamed/part_000 (lines 305-318), which tests `if (result.success)` —
JavaScript truthiness — instead of `result.success !== undefined`. -/
def unwrapEnvelopeTruthy (r : Result) : Except (Option String) JsValue :=
  match r.success with
  | some v => if v.truthy then Except.ok v else Except.error r.error
  | none => Except.error r.error

/-- The `RequestInit` descriptor handed to `fetch`: method, the two headers
this client ever sets, and the body.  `contentType = some ""` is the header
present with the empty string as value; `none` is the header absent. -/
structure RequestInit where
  method : String
  authorization : Option String
  contentType : Option String
  body : Option String

/-- A request as issued to `fetch`: URL plus init descriptor. -/
structure Request where
  url : String
  init : RequestInit

/-- `export class HttpClient` — fields set once in the constructor. -/
structure HttpClient where
  base_url : String
  auth : String

/-- The default `init` parameter of `HttpClient.http`: `{ method: "GET",
headers: { "Authorization": this.auth } }` — no content type, no body. -/
def HttpClient.defaultInit (c : HttpClient) : RequestInit :=
  { method := "GET", authorization := some c.auth, contentType := none, body := none }

/-- What one client call produces in the embedding: the request handed to
`fetch`, the unwrapped result (`Except.error` models `throw`), and the
client object's state when the call returns. -/
structure CallOut where
  request : Request
  result : Except (Option String) JsValue
  client : HttpClient

/-- `HttpClient.http` (src/src/app.ts lines 132-145): fetch `url` with
`init` (defaulted when the caller passes none), parse the body as a
`Result<T>` envelope, and unwrap it.  The parsed envelope `resp` stands for
the awaited `response.json()`. -/
def HttpClient.http (c : HttpClient) (url : String) (init : Option RequestInit)
    (resp : Result) : CallOut :=
  { request := { url := url, init := init.getD c.defaultInit }
  , result := unwrapEnvelope resp
  , client := c }

/-- `HttpClient.post` (lines 147-162): when `body` is defined it is
`JSON.stringify`-ed and `Content-type` is `application/json`; otherwise the
body text and the content type are both the empty string. -/
def HttpClient.post (c : HttpClient) (url : String) (body : Option JsValue)
    (resp : Result) : CallOut :=
  let body_text := match body with
    | some b => b.stringify
    | none => ""
  let content_type := match body with
    | some _ => "application/json"
    | none => ""
  c.http url (some { method := "POST", authorization := some c.auth
                   , contentType := some content_type, body := some body_text }) resp

/-- `HttpClient.put` (lines 164-173): always sends `Content-type:
application/json` and forwards the (already serialised, possibly absent)
string body unchanged. -/
def HttpClient.put (c : HttpClient) (url : String) (body : Option String)
    (resp : Result) : CallOut :=
  c.http url (some { method := "PUT", authorization := some c.auth
                   , contentType := some "application/json", body := body }) resp

/-- `HttpClient.delete` (lines 175-182): DELETE with only the Authorization
header. -/
def HttpClient.delete (c : HttpClient) (url : String) (resp : Result) : CallOut :=
  c.http url (some { method := "DELETE", authorization := some c.auth
                   , contentType := none, body := none }) resp

/-- `getHub` (lines 184-187): `this.http(this.base_url + "/hub/" + id)`. -/
def HttpClient.getHub (c : HttpClient) (id : ID) (resp : Result) : CallOut :=
  c.http (c.base_url ++ "/hub/" ++ id) none resp

/-- `createHub` (lines 189-192): POST `/hub` with `{ name, description }`. -/
def HttpClient.createHub (c : HttpClient) (name description : Option String)
    (resp : Result) : CallOut :=
  c.post (c.base_url ++ "/hub")
    (some (.obj [("name", optStrJs name), ("description", optStrJs description)])) resp

/-- `deleteHub` (lines 194-197): as written it calls
`this.http(this.base_url + "/hub/" + id)` with the default init — a GET —
rather than `this.delete`. -/
def HttpClient.deleteHub (c : HttpClient) (id : ID) (resp : Result) : CallOut :=
  c.http (c.base_url ++ "/hub/" ++ id) none resp

/-- `export interface HubUpdate` (lines 109-113). -/
structure HubUpdate where
  name : Option String
  description : Option String
  default_group : Option ID

/-- The JavaScript object a `HubUpdate` value denotes. -/
def HubUpdate.toJs (u : HubUpdate) : JsValue :=
  .obj [("name", optStrJs u.name), ("description", optStrJs u.description)
       , ("default_group", optStrJs u.default_group)]

/-- `export interface ChannelUpdate` (lines 115-118). -/
structure ChannelUpdate where
  name : Option String
  description : Option String

/-- The JavaScript object a `ChannelUpdate` value denotes. -/
def ChannelUpdate.toJs (u : ChannelUpdate) : JsValue :=
  .obj [("name", optStrJs u.name), ("description", optStrJs u.description)]

/-- `updateHub` (lines 199-202): PUT `/hub/{id}` with
`JSON.stringify(update)`. -/
def HttpClient.updateHub (c : HttpClient) (id : ID) (update : HubUpdate)
    (resp : Result) : CallOut :=
  c.put (c.base_url ++ "/hub/" ++ id) (some update.toJs.stringify) resp

/-- `joinHub` (lines 204-207): POST `/hub/{id}/join` with no body. -/
def HttpClient.joinHub (c : HttpClient) (hub_id : ID) (resp : Result) : CallOut :=
  c.post (c.base_url ++ "/hub/" ++ hub_id ++ "/join") none resp

/-- `leaveHub` (lines 209-212): POST `/hub/{id}/leave` with no body. -/
def HttpClient.leaveHub (c : HttpClient) (hub_id : ID) (resp : Result) : CallOut :=
  c.post (c.base_url ++ "/hub/" ++ hub_id ++ "/leave") none resp

/-- `getChannel` (lines 214-217). -/
def HttpClient.getChannel (c : HttpClient) (hub_id channel_id : ID)
    (resp : Result) : CallOut :=
  c.http (c.base_url ++ "/channel/" ++ hub_id ++ "/" ++ channel_id) none resp

/-- `updateChannel` (lines 219-222): PUT with `JSON.stringify(update)`. -/
def HttpClient.updateChannel (c : HttpClient) (hub_id channel_id : ID)
    (update : ChannelUpdate) (resp : Result) : CallOut :=
  c.put (c.base_url ++ "/channel/" ++ hub_id ++ "/" ++ channel_id)
    (some update.toJs.stringify) resp

/-- `deleteChannel` (lines 224-227): uses `this.delete`. -/
def HttpClient.deleteChannel (c : HttpClient) (hub_id channel_id : ID)
    (resp : Result) : CallOut :=
  c.delete (c.base_url ++ "/channel/" ++ hub_id ++ "/" ++ channel_id) resp

/-- `createChannel` (lines 229-232): POST `/channel/{hub}` with
`{ name, description }`. -/
def HttpClient.createChannel (c : HttpClient) (hub_id : ID)
    (name description : Option String) (resp : Result) : CallOut :=
  c.post (c.base_url ++ "/channel/" ++ hub_id)
    (some (.obj [("name", optStrJs name), ("description", optStrJs description)])) resp

/-- `getMember` (lines 234-237). -/
def HttpClient.getMember (c : HttpClient) (hub_id member_id : ID)
    (resp : Result) : CallOut :=
  c.http (c.base_url ++ "/member/" ++ hub_id ++ "/" ++ member_id) none resp

/-- `getMemberStatus` (lines 239-242). -/
def HttpClient.getMemberStatus (c : HttpClient) (hub_id member_id : ID)
    (resp : Result) : CallOut :=
  c.http (c.base_url ++ "/member/" ++ hub_id ++ "/" ++ member_id ++ "/status") none resp

/-- `setMemberHubPermission` (lines 244-247): PUT
`/member/{hub}/{member}/hub_permission/{perm}` with
`JSON.stringify({ setting })`. -/
def HttpClient.setMemberHubPermission (c : HttpClient) (hub_id member_id : ID)
    (permission : HubPermission) (setting : Option Bool) (resp : Result) : CallOut :=
  c.put (c.base_url ++ "/member/" ++ hub_id ++ "/" ++ member_id ++ "/hub_permission/"
          ++ permission.toString)
    (some (JsValue.stringify (.obj [("setting", optBoolJs setting)]))) resp

/-- `setMemberChannelPermission` (lines 249-252). -/
def HttpClient.setMemberChannelPermission (c : HttpClient) (hub_id member_id channel_id : ID)
    (permission : ChannelPermission) (setting : Option Bool) (resp : Result) : CallOut :=
  c.put (c.base_url ++ "/member/" ++ hub_id ++ "/" ++ member_id ++ "/channel_permission/"
          ++ channel_id ++ "/" ++ permission.toString)
    (some (JsValue.stringify (.obj [("setting", optBoolJs setting)]))) resp

/-- `getMemberHubPermission` (lines 254-257): GET
`/member/{hub}/{member}/hub_permission/{perm}` through the plain `http`
unwrap. -/
def HttpClient.getMemberHubPermission (c : HttpClient) (hub_id member_id : ID)
    (permission : HubPermission) (resp : Result) : CallOut :=
  c.http (c.base_url ++ "/member/" ++ hub_id ++ "/" ++ member_id ++ "/hub_permission/"
          ++ permission.toString) none resp

/-- `getMemberChannelPermission` (lines 259-262). -/
def HttpClient.getMemberChannelPermission (c : HttpClient) (hub_id member_id channel_id : ID)
    (permission : ChannelPermission) (resp : Result) : CallOut :=
  c.http (c.base_url ++ "/member/" ++ hub_id ++ "/" ++ member_id ++ "/channel_permission/"
          ++ channel_id ++ "/" ++ permission.toString) none resp

/-- `banMember` (lines 264-267): POST with no body. -/
def HttpClient.banMember (c : HttpClient) (hub_id member_id : ID)
    (resp : Result) : CallOut :=
  c.post (c.base_url ++ "/member/" ++ hub_id ++ "/" ++ member_id ++ "/ban") none resp

/-- `unbanMember` (lines 269-272). -/
def HttpClient.unbanMember (c : HttpClient) (hub_id member_id : ID)
    (resp : Result) : CallOut :=
  c.post (c.base_url ++ "/member/" ++ hub_id ++ "/" ++ member_id ++ "/unban") none resp

/-- `muteMember` (lines 274-277). -/
def HttpClient.muteMember (c : HttpClient) (hub_id member_id : ID)
    (resp : Result) : CallOut :=
  c.post (c.base_url ++ "/member/" ++ hub_id ++ "/" ++ member_id ++ "/mute") none resp

/-- `unmuteMember` (lines 279-282). -/
def HttpClient.unmuteMember (c : HttpClient) (hub_id member_id : ID)
    (resp : Result) : CallOut :=
  c.post (c.base_url ++ "/member/" ++ hub_id ++ "/" ++ member_id ++ "/unmute") none resp

/-- `kickMember` (lines 284-287). -/
def HttpClient.kickMember (c : HttpClient) (hub_id member_id : ID)
    (resp : Result) : CallOut :=
  c.post (c.base_url ++ "/member/" ++ hub_id ++ "/" ++ member_id ++ "/kick") none resp

/-- `sendMessage` (lines 289-292): POST `/message/{hub}/{channel}` with
`{ message }`. -/
def HttpClient.sendMessage (c : HttpClient) (hub_id channel_id : ID)
    (message : String) (resp : Result) : CallOut :=
  c.post (c.base_url ++ "/message/" ++ hub_id ++ "/" ++ channel_id)
    (some (.obj [("message", .str message)])) resp

/-- `getMessage` (lines 294-297). -/
def HttpClient.getMessage (c : HttpClient) (hub_id channel_id message_id : ID)
    (resp : Result) : CallOut :=
  c.http (c.base_url ++ "/message/" ++ hub_id ++ "/" ++ channel_id ++ "/" ++ message_id)
    none resp

/-- `getMessagesAfter` (lines 299-309): GET
`/message/{hub}/{channel}/after` with an explicit init — Authorization and
`Content-type: application/json` headers and body
`JSON.stringify({ from, max })` — then the usual unwrap. -/
def HttpClient.getMessagesAfter (c : HttpClient) (hub_id channel_id : ID)
    (fromId : ID) (maxN : Int) (resp : Result) : CallOut :=
  c.http (c.base_url ++ "/message/" ++ hub_id ++ "/" ++ channel_id ++ "/after")
    (some { method := "GET", authorization := some c.auth
          , contentType := some "application/json"
          , body := some (JsValue.stringify
              (.obj [("from", .str fromId), ("max", .num maxN)])) }) resp

/-- `getMesssagesTimeRange` (lines 311-321, name as in the source): GET
`/message/{hub}/{channel}/time_period` with body
`JSON.stringify({ from, to, max, new_to_old })`. -/
def HttpClient.getMesssagesTimeRange (c : HttpClient) (hub_id channel_id : ID)
    (fromDate toDate : Date) (maxN : Int) (new_to_old : Bool) (resp : Result) : CallOut :=
  c.http (c.base_url ++ "/message/" ++ hub_id ++ "/" ++ channel_id ++ "/time_period")
    (some { method := "GET", authorization := some c.auth
          , contentType := some "application/json"
          , body := some (JsValue.stringify
              (.obj [("from", .date fromDate.iso), ("to", .date toDate.iso)
                    , ("max", .num maxN), ("new_to_old", .bool new_to_old)])) }) resp

/-- What a `graphQL` call produces: the request, the raw parsed response
body (no envelope unwrap, so the result is a plain value, never a thrown
`RemoteError`), and the client state. -/
structure GraphQLOut where
  request : Request
  result : JsValue
  client : HttpClient

/-- `graphQL` (lines 323-335): POST `/graphql` with
`JSON.stringify({ query, variables })` and return `response.json()` raw —
bypassing `http` and its envelope unwrap entirely.  `respBody` stands for
the awaited `response.json()`. -/
def HttpClient.graphQL (c : HttpClient) (query : String) (vars : Option JsValue)
    (respBody : JsValue) : GraphQLOut :=
  { request := { url := c.base_url ++ "/graphql"
               , init := { method := "POST", authorization := some c.auth
                         , contentType := some "application/json"
                         , body := some (JsValue.stringify
                             (.obj [("query", .str query)
                                   , ("variables", vars.getD .undefValue)])) } }
  , result := respBody
  , client := c }

/-! Helper lemmas about the envelope unwrap, shared by the claim theorems. -/

/-- When `success` is not defined (absent or the value `undefined`), the
unwrap throws, carrying the envelope's `error` field. -/
theorem unwrapEnvelope_error (r : Result) (h : r.successDefined = false) :
    unwrapEnvelope r = Except.error r.error := by
  unfold unwrapEnvelope
  unfold Result.successDefined at h
  match hs : r.success with
  | none => rfl
  | some v =>
    rw [hs] at h
    simp only [Bool.not_eq_false'] at h
    simp [h]

/-- When `success` is defined, the unwrap returns it exactly. -/
theorem unwrapEnvelope_ok (r : Result) (v : JsValue) (hs : r.success = some v)
    (hu : v.isUndefValue = false) : unwrapEnvelope r = Except.ok v := by
  unfold unwrapEnvelope
  rw [hs]
  simp [hu]

/-- The unwrap only ever returns a defined (non-`undefined`) value. -/
theorem unwrapEnvelope_ok_never_undefValue (r : Result) (v : JsValue)
    (h : unwrapEnvelope r = Except.ok v) : v.isUndefValue = false := by
  unfold unwrapEnvelope at h
  split at h
  · split at h
    · exact absurd h (by simp)
    · next hw =>
      cases h
      simpa using hw
  · exact absurd h (by simp)

/-! Claim theorems. -/

/-- C1 counterexample: in the earlier draft (src/unnamed/part_000), at the
envelope `{ success: false, error: "err" }` the `success` field is defined
(`success !== undefined`), yet the draft `http` unwrap does not return it —
it throws the envelope's error — because it tests truthiness.  So the claim
as stated, covering both cited copies of `http`, is false at this input. -/
theorem c1_truthy_draft_counterexample :
    Result.successDefined { success := some (JsValue.bool false), error := some "err" } = true ∧
    unwrapEnvelopeTruthy { success := some (JsValue.bool false), error := some "err" } =
      Except.error (some "err") := by
  constructor
  · rfl
  · rfl

/-- C1 (amended): in the final revision (src/src/app.ts), whenever the
envelope's `success` field is defined — including falsy-but-defined values —
`http` returns exactly that value, the presence test being
`success !== undefined`; in the earlier draft (src/unnamed/part_000) the
presence test is truthiness, so a defined-but-falsy `success` value is not
returned but raised as an error carrying the envelope's `error` field. -/
theorem c1_success_defined_returned (r : Result) :
    (∀ v, r.success = some v → v.isUndefValue = false → unwrapEnvelope r = Except.ok v) ∧
    (∀ v, r.success = some v → v.truthy = false → unwrapEnvelopeTruthy r = Except.error r.error) := by
  constructor
  · intro v hs hu
    exact unwrapEnvelope_ok r v hs hu
  · intro v hs ht
    unfold unwrapEnvelopeTruthy
    rw [hs]
    simp [ht]

/-- C1 witness: the amended theorem applied at the envelopes
`{ success: 0 }` and `{ success: "" }`. -/
theorem c1_success_defined_returned_witness :
    unwrapEnvelope { success := some (JsValue.num 0), error := none } =
      Except.ok (JsValue.num 0) ∧
    unwrapEnvelopeTruthy { success := some (JsValue.str ""), error := none } =
      Except.error none :=
  ⟨(c1_success_defined_returned { success := some (JsValue.num 0), error := none }).1
      (JsValue.num 0) rfl rfl,
   (c1_success_defined_returned { success := some (JsValue.str ""), error := none }).2
      (JsValue.str "") rfl rfl⟩

/-- C3: evaluating `deleteHub` at a concrete client and hub id shows that,
as written, it issues a GET with the default init (only the Authorization
header) — the very same request `getHub` issues — and not a DELETE, because
its body calls `this.http(this.base_url + "/hub/" + id)` instead of
`this.delete`. -/
theorem c3_deleteHub_sends_get :
    (HttpClient.deleteHub { base_url := "b", auth := "a" } "h"
        { success := some (JsValue.str "ok"), error := none }).request =
      { url := "b/hub/h"
      , init := { method := "GET", authorization := some "a"
                , contentType := none, body := none } } ∧
    (HttpClient.deleteHub { base_url := "b", auth := "a" } "h"
        { success := some (JsValue.str "ok"), error := none }).request =
    (HttpClient.getHub { base_url := "b", auth := "a" } "h"
        { success := some (JsValue.str "ok"), error := none }).request := by
  constructor
  · rfl
  · rfl

/-- C5 counterexample: a PUT with no body argument is sent with
`Content-type: application/json` — not the empty content type — and with no
body at all rather than an empty body string. -/
theorem c5_put_no_body_counterexample :
    (HttpClient.put { base_url := "b", auth := "a" } "u" none
        { success := none, error := none }).request.init.contentType =
      some "application/json" ∧
    (HttpClient.put { base_url := "b", auth := "a" } "u" none
        { success := none, error := none }).request.init.contentType ≠ some "" ∧
    (HttpClient.put { base_url := "b", auth := "a" } "u" none
        { success := none, error := none }).request.init.body = none := by
  refine ⟨rfl, ?_, rfl⟩
  intro h
  have h2 : (some "application/json" : Option String) = some "" := h
  exact absurd h2 (by decide)

/-- C5 (amended): every PUT request sets `Content-type: application/json`
unconditionally and forwards the body argument unchanged — the request has
no body when the argument is absent; serialisation to JSON happens at the
call sites (which pass `JSON.stringify(...)`), not inside `put`.  Only
`post` implements the empty-body/empty-content-type default. -/
theorem c5_put_request_shape (c : HttpClient) (url : String) (b : Option String)
    (resp : Result) :
    (c.put url b resp).request =
      { url := url
      , init := { method := "PUT", authorization := some c.auth
                , contentType := some "application/json", body := b } } := rfl

/-- C6: `graphQL(query, variables)` issues a POST to `{base_url}/graphql`
with Authorization and `Content-type: application/json` headers and body
`JSON.stringify({ query, variables })`, and returns the raw parsed response
body for every possible body — no envelope unwrap is applied, so no error
is ever raised from an `error` field of the body. -/
theorem c6_graphQL_raw_response (c : HttpClient) (q : String) (vars : Option JsValue)
    (body : JsValue) :
    (c.graphQL q vars body).request =
      { url := c.base_url ++ "/graphql"
      , init := { method := "POST", authorization := some c.auth
                , contentType := some "application/json"
                , body := some (JsValue.stringify
                    (.obj [("query", .str q), ("variables", vars.getD .undefValue)])) } } ∧
    (c.graphQL q vars body).result = body := by
  constructor
  · rfl
  · rfl

/-- C7: a POST with a defined body argument serialises it with
`JSON.stringify` and sets `Content-type: application/json`; a POST with no
body argument carries the empty string as body and the empty string as
content type; in both cases the Authorization header carries the client's
bearer token. -/
theorem c7_post_request_shape (c : HttpClient) (url : String) (b : Option JsValue)
    (resp : Result) :
    (b = none →
      (c.post url b resp).request.init =
        { method := "POST", authorization := some c.auth
        , contentType := some "", body := some "" }) ∧
    (∀ v, b = some v →
      (c.post url b resp).request.init =
        { method := "POST", authorization := some c.auth
        , contentType := some "application/json", body := some v.stringify }) := by
  constructor
  · intro hb
    subst hb
    rfl
  · intro v hb
    subst hb
    rfl

/-- C7 witness: the theorem applied at a client with token "a", once with no
body and once with the body `{ "message": "hi" }`. -/
theorem c7_post_request_shape_witness :
    (HttpClient.post { base_url := "b", auth := "a" } "u" none
        { success := none, error := none }).request.init =
      { method := "POST", authorization := some "a"
      , contentType := some "", body := some "" } ∧
    (HttpClient.post { base_url := "b", auth := "a" } "u"
        (some (.obj [("message", .str "hi")]))
        { success := none, error := none }).request.init =
      { method := "POST", authorization := some "a"
      , contentType := some "application/json"
      , body := some (JsValue.stringify (.obj [("message", .str "hi")])) } :=
  ⟨(c7_post_request_shape { base_url := "b", auth := "a" } "u" none
      { success := none, error := none }).1 rfl,
   (c7_post_request_shape { base_url := "b", auth := "a" } "u"
      (some (.obj [("message", .str "hi")]))
      { success := none, error := none }).2 (.obj [("message", .str "hi")]) rfl⟩

/-- C10: whenever the envelope's `success` field is not defined, `http`
raises, carrying the envelope's `error` field as its message; in particular
when neither `success` nor `error` is defined it raises with an undefined
message (`none`), and it never returns normally. -/
theorem c10_http_raises_without_success (c : HttpClient) (url : String)
    (init : Option RequestInit) (e : Result) (h : e.successDefined = false) :
    (c.http url init e).result = Except.error e.error ∧
    (c.http url init { success := none, error := none }).result = Except.error none := by
  constructor
  · exact unwrapEnvelope_error e h
  · rfl

/-- C10 witness: the theorem applied at a concrete client and the envelope
with both fields absent. -/
theorem c10_http_raises_without_success_witness :
    (HttpClient.http { base_url := "b", auth := "a" } "u" none
        { success := none, error := none }).result = Except.error none :=
  (c10_http_raises_without_success { base_url := "b", auth := "a" } "u" none
      { success := none, error := none } rfl).1

/-- C2: for every envelope response in which the `success` field is not
defined and the `error` field carries the server-supplied string `s`, every
envelope-unwrapping client call (every endpoint method; the GraphQL call is
not an envelope response by the wire protocol) raises an error whose
message is `s`. -/
theorem c2_error_envelope_raises (c : HttpClient) (e : Result) (s : String)
    (habsent : e.successDefined = false) (herr : e.error = some s)
    (hub mem ch msg fromId : ID) (hp : HubPermission) (cp : ChannelPermission)
    (name description : Option String) (hu : HubUpdate) (cu : ChannelUpdate)
    (setting : Option Bool) (content : String) (maxN : Int) (d1 d2 : Date)
    (nto : Bool) :
    (c.getHub hub e).result = Except.error (some s) ∧
    (c.createHub name description e).result = Except.error (some s) ∧
    (c.deleteHub hub e).result = Except.error (some s) ∧
    (c.updateHub hub hu e).result = Except.error (some s) ∧
    (c.joinHub hub e).result = Except.error (some s) ∧
    (c.leaveHub hub e).result = Except.error (some s) ∧
    (c.getChannel hub ch e).result = Except.error (some s) ∧
    (c.updateChannel hub ch cu e).result = Except.error (some s) ∧
    (c.deleteChannel hub ch e).result = Except.error (some s) ∧
    (c.createChannel hub name description e).result = Except.error (some s) ∧
    (c.getMember hub mem e).result = Except.error (some s) ∧
    (c.getMemberStatus hub mem e).result = Except.error (some s) ∧
    (c.setMemberHubPermission hub mem hp setting e).result = Except.error (some s) ∧
    (c.setMemberChannelPermission hub mem ch cp setting e).result = Except.error (some s) ∧
    (c.getMemberHubPermission hub mem hp e).result = Except.error (some s) ∧
    (c.getMemberChannelPermission hub mem ch cp e).result = Except.error (some s) ∧
    (c.banMember hub mem e).result = Except.error (some s) ∧
    (c.unbanMember hub mem e).result = Except.error (some s) ∧
    (c.muteMember hub mem e).result = Except.error (some s) ∧
    (c.unmuteMember hub mem e).result = Except.error (some s) ∧
    (c.kickMember hub mem e).result = Except.error (some s) ∧
    (c.sendMessage hub ch content e).result = Except.error (some s) ∧
    (c.getMessage hub ch msg e).result = Except.error (some s) ∧
    (c.getMessagesAfter hub ch fromId maxN e).result = Except.error (some s) ∧
    (c.getMesssagesTimeRange hub ch d1 d2 maxN nto e).result = Except.error (some s) := by
  have key : unwrapEnvelope e = Except.error (some s) := by
    rw [unwrapEnvelope_error e habsent, herr]
  exact ⟨key, key, key, key, key, key, key, key, key, key, key, key, key, key, key,
    key, key, key, key, key, key, key, key, key, key⟩

/-- C2 witness: the theorem applied at a concrete client and the error
envelope `{ error: "nope" }`. -/
theorem c2_error_envelope_raises_witness :
    (HttpClient.getHub { base_url := "b", auth := "a" } "h"
        { success := none, error := some "nope" }).result = Except.error (some "nope") :=
  (c2_error_envelope_raises { base_url := "b", auth := "a" }
      { success := none, error := some "nope" } "nope" rfl rfl
      "h" "m" "c" "x" "f" HubPermission.All ChannelPermission.Read none none
      { name := none, description := none, default_group := none }
      { name := none, description := none } none "t" 5
      { iso := "d1" } { iso := "d2" } true).1

/-- C4 counterexample: `getMemberHubPermission` cannot return `undefined`:
at the envelope with `success` absent (the only wire encoding in which the
unwrapped value would be JavaScript `undefined`), it raises the envelope's
error instead of returning; at the envelope `{ success: null }` it returns
`null` — and `null` is not `undefined`.  So the claim's "returns unset
(undefined) rather than raising" is false as stated. -/
theorem c4_unset_permission_counterexample :
    (HttpClient.getMemberHubPermission { base_url := "b", auth := "a" } "h" "m"
        HubPermission.Administrate
        { success := none, error := some "no such permission" }).result =
      Except.error (some "no such permission") ∧
    (HttpClient.getMemberHubPermission { base_url := "b", auth := "a" } "h" "m"
        HubPermission.Administrate
        { success := some JsValue.null, error := none }).result =
      Except.ok JsValue.null ∧
    JsValue.null ≠ JsValue.undefValue := by
  refine ⟨rfl, rfl, ?_⟩
  intro h
  exact JsValue.noConfusion h

/-- C4 (amended): for a member whose hub permission is unset, with the
server encoding unset as `{ success: null }`, `getMemberHubPermission`
returns `null` (the unset marker) rather than raising — it can never return
`undefined`, and it raises exactly when the envelope's `success` is not
defined; `setMemberHubPermission(perm, true)` issues a PUT to
`/member/{hub}/{member}/hub_permission/{perm}` with body
`{"setting":true}`, and a subsequent get answered by the server with
`{ success: true }` returns `true`. -/
theorem c4_permission_unset_null_then_true (c : HttpClient) (hub mem : ID)
    (p : HubPermission) (e1 e2 eset : Result)
    (h1 : e1.success = some JsValue.null)
    (h2 : e2.success = some (JsValue.bool true)) :
    (c.getMemberHubPermission hub mem p e1).result = Except.ok JsValue.null ∧
    (∀ e v, (c.getMemberHubPermission hub mem p e).result = Except.ok v →
      v ≠ JsValue.undefValue) ∧
    (∀ e, e.successDefined = false →
      (c.getMemberHubPermission hub mem p e).result = Except.error e.error) ∧
    (c.setMemberHubPermission hub mem p (some true) eset).request =
      { url := c.base_url ++ "/member/" ++ hub ++ "/" ++ mem ++ "/hub_permission/"
                ++ p.toString
      , init := { method := "PUT", authorization := some c.auth
                , contentType := some "application/json"
                , body := some (JsValue.stringify
                    (.obj [("setting", JsValue.bool true)])) } } ∧
    (c.getMemberHubPermission hub mem p e2).result = Except.ok (JsValue.bool true) := by
  refine ⟨unwrapEnvelope_ok e1 JsValue.null h1 rfl, ?_, ?_, rfl,
    unwrapEnvelope_ok e2 (JsValue.bool true) h2 rfl⟩
  · intro e v h hv
    have hnu : v.isUndefValue = false := unwrapEnvelope_ok_never_undefValue e v h
    subst hv
    exact absurd hnu (by simp [JsValue.isUndefValue])
  · intro e he
    exact unwrapEnvelope_error e he

/-- C4 witness: the amended theorem applied at a concrete client, with the
unset reply `{ success: null }` and the post-set reply `{ success: true }`. -/
theorem c4_permission_unset_null_then_true_witness :
    (HttpClient.getMemberHubPermission { base_url := "b", auth := "a" } "h" "m"
        HubPermission.ReadChannels { success := some JsValue.null, error := none }).result =
      Except.ok JsValue.null ∧
    (HttpClient.getMemberHubPermission { base_url := "b", auth := "a" } "h" "m"
        HubPermission.ReadChannels
        { success := some (JsValue.bool true), error := none }).result =
      Except.ok (JsValue.bool true) :=
  ⟨(c4_permission_unset_null_then_true { base_url := "b", auth := "a" } "h" "m"
      HubPermission.ReadChannels { success := some JsValue.null, error := none }
      { success := some (JsValue.bool true), error := none }
      { success := some (JsValue.str "ok"), error := none } rfl rfl).1,
   (c4_permission_unset_null_then_true { base_url := "b", auth := "a" } "h" "m"
      HubPermission.ReadChannels { success := some JsValue.null, error := none }
      { success := some (JsValue.bool true), error := none }
      { success := some (JsValue.str "ok"), error := none } rfl rfl).2.2.2.2⟩

/-- C8: `getMessagesAfter` issues a GET to `/message/{hub}/{channel}/after`
with body `JSON.stringify({ from, max })`, and `getMesssagesTimeRange`
issues a GET to `/message/{hub}/{channel}/time_period` with body
`JSON.stringify({ from, to, max, new_to_old })`; both carry the
Authorization and `Content-type: application/json` headers, and both return
the envelope's unwrapped `success` value (the list of messages) exactly. -/
theorem c8_message_queries (c : HttpClient) (hub ch fromId : ID) (maxN : Int)
    (d1 d2 : Date) (nto : Bool) (e : Result) (v : JsValue)
    (hv : e.success = some v) (hnu : v.isUndefValue = false) :
    (c.getMessagesAfter hub ch fromId maxN e).request =
      { url := c.base_url ++ "/message/" ++ hub ++ "/" ++ ch ++ "/after"
      , init := { method := "GET", authorization := some c.auth
                , contentType := some "application/json"
                , body := some (JsValue.stringify
                    (.obj [("from", .str fromId), ("max", .num maxN)])) } } ∧
    (c.getMesssagesTimeRange hub ch d1 d2 maxN nto e).request =
      { url := c.base_url ++ "/message/" ++ hub ++ "/" ++ ch ++ "/time_period"
      , init := { method := "GET", authorization := some c.auth
                , contentType := some "application/json"
                , body := some (JsValue.stringify
                    (.obj [("from", .date d1.iso), ("to", .date d2.iso)
                          , ("max", .num maxN), ("new_to_old", .bool nto)])) } } ∧
    (c.getMessagesAfter hub ch fromId maxN e).result = Except.ok v ∧
    (c.getMesssagesTimeRange hub ch d1 d2 maxN nto e).result = Except.ok v :=
  ⟨rfl, rfl, unwrapEnvelope_ok e v hv hnu, unwrapEnvelope_ok e v hv hnu⟩

/-- C8 witness: the theorem applied at a concrete client with the reply
`{ success: [] }` (an empty message list). -/
theorem c8_message_queries_witness :
    (HttpClient.getMessagesAfter { base_url := "b", auth := "a" } "h" "c" "m0" 10
        { success := some (JsValue.arr []), error := none }).result =
      Except.ok (JsValue.arr []) :=
  (c8_message_queries { base_url := "b", auth := "a" } "h" "c" "m0" 10
      { iso := "t1" } { iso := "t2" } false
      { success := some (JsValue.arr []), error := none } (JsValue.arr [])
      rfl rfl).2.2.1

/-- C9: no client call mutates the client object — every transport helper,
every endpoint method, and `graphQL` leave the `base_url` and `auth` fields
set at construction unchanged (the call's outgoing client state equals the
incoming one). -/
theorem c9_client_state_unchanged (c : HttpClient) (hub mem ch msg fromId : ID)
    (hp : HubPermission) (cp : ChannelPermission) (name description : Option String)
    (hu : HubUpdate) (cu : ChannelUpdate) (setting : Option Bool) (content : String)
    (maxN : Int) (d1 d2 : Date) (nto : Bool) (q : String) (vars : Option JsValue)
    (e : Result) (b : JsValue) (url : String) (init : Option RequestInit)
    (sbody : Option String) (jbody : Option JsValue) :
    (c.http url init e).client = c ∧
    (c.post url jbody e).client = c ∧
    (c.put url sbody e).client = c ∧
    (c.delete url e).client = c ∧
    (c.getHub hub e).client = c ∧
    (c.createHub name description e).client = c ∧
    (c.deleteHub hub e).client = c ∧
    (c.updateHub hub hu e).client = c ∧
    (c.joinHub hub e).client = c ∧
    (c.leaveHub hub e).client = c ∧
    (c.getChannel hub ch e).client = c ∧
    (c.updateChannel hub ch cu e).client = c ∧
    (c.deleteChannel hub ch e).client = c ∧
    (c.createChannel hub name description e).client = c ∧
    (c.getMember hub mem e).client = c ∧
    (c.getMemberStatus hub mem e).client = c ∧
    (c.setMemberHubPermission hub mem hp setting e).client = c ∧
    (c.setMemberChannelPermission hub mem ch cp setting e).client = c ∧
    (c.getMemberHubPermission hub mem hp e).client = c ∧
    (c.getMemberChannelPermission hub mem ch cp e).client = c ∧
    (c.banMember hub mem e).client = c ∧
    (c.unbanMember hub mem e).client = c ∧
    (c.muteMember hub mem e).client = c ∧
    (c.unmuteMember hub mem e).client = c ∧
    (c.kickMember hub mem e).client = c ∧
    (c.sendMessage hub ch content e).client = c ∧
    (c.getMessage hub ch msg e).client = c ∧
    (c.getMessagesAfter hub ch fromId maxN e).client = c ∧
    (c.getMesssagesTimeRange hub ch d1 d2 maxN nto e).client = c ∧
    (c.graphQL q vars b).client = c :=
  ⟨rfl, rfl, rfl, rfl, rfl, rfl, rfl, rfl, rfl, rfl, rfl, rfl, rfl, rfl, rfl,
   rfl, rfl, rfl, rfl, rfl, rfl, rfl, rfl, rfl, rfl, rfl, rfl, rfl, rfl, rfl⟩

end JsApi
